import Mathlib

/-!
Shallow embedding of `src/frontend/src/App.jsx`, the single source file of the
repository: a browser voice recorder that accumulates audio chunks, finalizes
them into a blob on stop, uploads the blob to a transcription endpoint and
displays the returned text.  React state hooks and refs become fields of an
explicit `AppState`; the event handlers become pure state-transition functions;
the null dereference in `stopRecording` and the upload fetch become `Except`.
-/

namespace App

/-- A byte sequence: the binary content of a blob or of one emitted audio chunk. -/
abbrev Bytes := List Nat

/-- Model of a JS `Blob`: byte content plus a MIME type string.
`new Blob(chunks, ...)` concatenates the chunks' bytes in order. -/
structure Blob where
  bytes : Bytes
  type : String
deriving Repr, DecidableEq

/-- `new Blob(audioChunksRef.current, \x7b type: "audio/wav" \x7d)` from the
`mediaRecorder.onstop` handler (App.jsx:23). -/
def mkWavBlob (chunks : List Bytes) : Blob :=
  { bytes := chunks.flatten, type := "audio/wav" }

/-- The state of a `MediaRecorder` object: recording after `start()`,
inactive after `stop()`. -/
inductive RecorderState
  | inactive
  | recording
deriving Repr, DecidableEq

/-- Model of the `MediaStream` returned by `getUserMedia` (App.jsx:13): an
identity plus the live/stopped status of its audio track.  The code never
operates on the stream after acquiring it, so these fields can only change if
some handler explicitly writes them. -/
structure MediaStream where
  id : Nat
  audioTrackLive : Bool
deriving Repr, DecidableEq

/-- Model of the `MediaRecorder` built in `startRecording` (App.jsx:14): it
holds the acquired stream and its own recorder state. -/
structure MediaRecorder where
  stream : MediaStream
  state : RecorderState
deriving Repr, DecidableEq

/-- Model of the object URL returned by `URL.createObjectURL(blob)`
(App.jsx:24): a handle resolving to the blob it was created from. -/
structure ObjectURL where
  blob : Blob
deriving Repr, DecidableEq

/-- `URL.createObjectURL` (App.jsx:24). -/
def createObjectURL (b : Blob) : ObjectURL := ⟨b⟩

/-- The component state of `App` (App.jsx:5-10): the two `useState` hooks
`recording` and `audioUrl`, the `transcription` string, and the two refs
`mediaRecorderRef` (initially `null`) and `audioChunksRef` (initially `[]`). -/
structure AppState where
  recording : Bool
  audioUrl : Option ObjectURL
  transcription : String
  mediaRecorderRef : Option MediaRecorder
  audioChunksRef : List Bytes
deriving Repr, DecidableEq

/-- The initial component state: `useState(false)`, `useState(null)`,
`useState("")`, `useRef(null)`, `useRef([])`. -/
def initialState : AppState :=
  { recording := false
    audioUrl := none
    transcription := ""
    mediaRecorderRef := none
    audioChunksRef := [] }

/-- `startRecording` (App.jsx:12-46): acquires a stream, builds a new
`MediaRecorder` on it, resets `audioChunksRef.current = []`, installs the
handlers, stores the recorder in `mediaRecorderRef`, starts it and sets
`recording` to `true`.  `audioUrl` and `transcription` are not touched. -/
def startRecording (st : AppState) (stream : MediaStream) : AppState :=
  { st with
    audioChunksRef := []
    mediaRecorderRef := some { stream := stream, state := RecorderState.recording }
    recording := true }

/-- The `ondataavailable` handler (App.jsx:18-20): pushes the emitted chunk
onto `audioChunksRef.current`. -/
def ondataavailable (st : AppState) (frag : Bytes) : AppState :=
  { st with audioChunksRef := st.audioChunksRef ++ [frag] }

/-- Delivery of a list of chunks, in emission order, to `ondataavailable`. -/
def emitAll (st : AppState) (frags : List Bytes) : AppState :=
  frags.foldl ondataavailable st

/-- The JS errors the embedded handlers can throw: `stopRecording` calls
`mediaRecorderRef.current.stop()` with no guard, which is a `TypeError` when
the ref is still `null`. -/
inductive JsError
  | typeErrorNullStop
deriving Repr, DecidableEq

/-- `stopRecording` (App.jsx:48-51): `mediaRecorderRef.current.stop()` with no
state check — a null dereference when no recorder was ever created — then
`setRecording(false)`.  `stop()` only changes the recorder's own state; the
stream held by the recorder is not touched. -/
def stopRecording (st : AppState) : Except JsError AppState :=
  match st.mediaRecorderRef with
  | none => Except.error JsError.typeErrorNullStop
  | some r =>
      Except.ok
        { st with
          mediaRecorderRef := some { r with state := RecorderState.inactive }
          recording := false }

/-- The JSON body of a transcription response: the `transcription` field may
be present (a string) or absent. -/
structure TranscribeResponse where
  transcription : Option String
deriving Repr, DecidableEq

/-- `data.transcription || ""` (App.jsx:37): JS `||` yields the right operand
when the left is absent (`undefined`) or the empty string, both falsy. -/
def jsOrEmptyString (v : Option String) : String :=
  match v with
  | none => ""
  | some s => if s = "" then "" else s

/-- The outcome of `fetch` followed by `res.json()` (App.jsx:31-36): either a
parsed response, or a thrown error carrying `err.message` (network failure or
non-JSON body). -/
abbrev FetchOutcome := Except String TranscribeResponse

/-- One part of a `FormData` body: `formData.append(field, blob, filename)`. -/
structure FormPart where
  field : String
  filename : String
  blob : Blob
deriving Repr, DecidableEq

/-- An outbound HTTP request as built by the `onstop` handler. -/
structure Request where
  method : String
  url : String
  parts : List FormPart
deriving Repr, DecidableEq

/-- The hardcoded upload endpoint (App.jsx:31). -/
def transcribeEndpoint : String := "http://127.0.0.1:8000/api/transcribe"

/-- The request built in `onstop` (App.jsx:27-34): `POST` to the fixed
endpoint with a `FormData` body holding exactly one part,
`formData.append("audio_file", blob, "audio.wav")`. -/
def mkUploadRequest (blob : Blob) : Request :=
  { method := "POST"
    url := transcribeEndpoint
    parts := [{ field := "audio_file", filename := "audio.wav", blob := blob }] }

/-- The finalized binary built at the top of `onstop` (App.jsx:23):
`new Blob(audioChunksRef.current, ...)`. -/
def finalizeBlob (st : AppState) : Blob := mkWavBlob st.audioChunksRef

/-- The synchronous part of the `onstop` handler (App.jsx:22-34), executed
before the fetch suspends: finalize the blob, create its object URL, set
`audioUrl`, build the form data and issue the single upload request. -/
def onstopSync (st : AppState) : AppState × List Request :=
  let blob := finalizeBlob st
  ({ st with audioUrl := some (createObjectURL blob) },
   [mkUploadRequest blob])

/-- The continuation of `onstop` after the fetch resolves (App.jsx:35-40):
on success `setTranscription(data.transcription || "")`; on a caught failure
`setTranscription("Error al transcribir: " + err.message)`.  Only
`transcription` is written on either path. -/
def applyFetchOutcome (st : AppState) (outcome : FetchOutcome) : AppState :=
  match outcome with
  | Except.ok data => { st with transcription := jsOrEmptyString data.transcription }
  | Except.error msg => { st with transcription := "Error al transcribir: " ++ msg }

/-- The whole `onstop` handler (App.jsx:22-41) for a given fetch outcome:
the synchronous part followed by the fetch continuation, together with the
list of requests it issued. -/
def onstop (st : AppState) (outcome : FetchOutcome) : AppState × List Request :=
  let p := onstopSync st
  (applyFetchOutcome p.1 outcome, p.2)

/-- Helper: delivering chunks appends them, in order, to the accumulated
sequence. -/
theorem emitAll_audioChunksRef (st : AppState) (frags : List Bytes) :
    (emitAll st frags).audioChunksRef = st.audioChunksRef ++ frags := by
  induction frags generalizing st with
  | nil => simp [emitAll]
  | cons f fs ih =>
      show (emitAll (ondataavailable st f) fs).audioChunksRef = _
      rw [ih]
      simp [ondataavailable]

/-- Claim C1: for every prior component state, acquired stream, sequence of
fragments emitted between start and stop, and fetch outcome, the finalized
binary produced at stop has byte content equal to the concatenation of the
emitted fragments in emission order; the object URL bound at stop resolves to
exactly that binary. -/
theorem finalized_blob_is_concat (st : AppState) (stream : MediaStream)
    (frags : List Bytes) (outcome : FetchOutcome) :
    (finalizeBlob (emitAll (startRecording st stream) frags)).bytes = frags.flatten ∧
    ((onstop (emitAll (startRecording st stream) frags) outcome).1).audioUrl =
      some (createObjectURL { bytes := frags.flatten, type := "audio/wav" }) := by
  have h : (emitAll (startRecording st stream) frags).audioChunksRef = frags := by
    rw [emitAll_audioChunksRef]
    simp [startRecording]
  constructor
  · simp [finalizeBlob, mkWavBlob, h]
  · cases outcome <;>
      simp [onstop, onstopSync, applyFetchOutcome, finalizeBlob, mkWavBlob, h]

/-- Claim C2: the displayed transcription is set from the response's
`transcription` field whenever it is present (in particular the response with
field `"hola"` yields exactly `"hola"`), and to the empty string, not an
error, when the field is absent. -/
theorem transcription_from_response (st : AppState) (s : String) :
    (applyFetchOutcome st (Except.ok { transcription := some s })).transcription = s ∧
    (applyFetchOutcome st (Except.ok { transcription := some "hola" })).transcription
      = "hola" ∧
    (applyFetchOutcome st (Except.ok { transcription := none })).transcription = "" := by
  refine ⟨?_, ?_, ?_⟩
  · by_cases h : s = "" <;> simp [applyFetchOutcome, jsOrEmptyString, h]
  · simp [applyFetchOutcome, jsOrEmptyString]
  · simp [applyFetchOutcome, jsOrEmptyString]

/-- Claim C3: every upload failure is caught and turns the displayed
transcription into the fixed human-readable Spanish string with the failure
message appended, so the displayed text contains the failure message. -/
theorem upload_failure_displays_message (st : AppState) (msg : String) :
    (applyFetchOutcome st (Except.error msg)).transcription
      = "Error al transcribir: " ++ msg ∧
    ∃ p, (applyFetchOutcome st (Except.error msg)).transcription = p ++ msg := by
  exact ⟨rfl, "Error al transcribir: ", rfl⟩

/-- Claim C4: starting a new recording from any prior state — including one
with a previous session's chunks still accumulated and its upload pending —
clears the accumulated fragments, and the new session's fragment list is
exactly the newly emitted fragments, independent of the prior state. -/
theorem second_start_fragments_independent (st : AppState) (stream : MediaStream)
    (frags : List Bytes) :
    (startRecording st stream).audioChunksRef = [] ∧
    (emitAll (startRecording st stream) frags).audioChunksRef = frags := by
  constructor
  · rfl
  · rw [emitAll_audioChunksRef]
    simp [startRecording]

/-- Claim C5: on upload failure the error string overwrites the transcription
regardless of what text the user had been editing: for every prior text the
result is the same error string and preserves nothing of the prior text. -/
theorem failure_overwrites_user_text (st : AppState) (userText msg : String) :
    (applyFetchOutcome { st with transcription := userText }
        (Except.error msg)).transcription = "Error al transcribir: " ++ msg := by
  rfl

/-- Claim C6: each invocation of the upload path issues exactly one request,
a `POST` to the fixed endpoint whose multipart body has the single part named
`audio_file` with filename `audio.wav` holding the finalized binary. -/
theorem upload_single_request (st : AppState) (outcome : FetchOutcome) :
    (onstop st outcome).2
      = [{ method := "POST"
           url := "http://127.0.0.1:8000/api/transcribe"
           parts := [{ field := "audio_file", filename := "audio.wav"
                       blob := finalizeBlob st }] }] ∧
    (onstop st outcome).2.length = 1 := by
  cases outcome <;>
    simp [onstop, onstopSync, mkUploadRequest, transcribeEndpoint]

/-- Claim C7: start followed immediately by stop with zero emitted fragments
finalizes a binary of length zero, and the finalization path completes (it is
a total function, here evaluated on the empty chunk list). -/
theorem empty_session_zero_length (st : AppState) (stream : MediaStream)
    (outcome : FetchOutcome) :
    (finalizeBlob (startRecording st stream)).bytes.length = 0 ∧
    ((onstop (startRecording st stream) outcome).1).audioUrl
      = some (createObjectURL { bytes := [], type := "audio/wav" }) := by
  constructor
  · simp [finalizeBlob, mkWavBlob, startRecording]
  · cases outcome <;>
      simp [onstop, onstopSync, applyFetchOutcome, finalizeBlob, mkWavBlob,
        startRecording]

/-- Claim C8: `stopRecording` is unguarded: invoked in the initial state,
where the recorder ref is still null, it dereferences the null ref and fails
with a TypeError instead of returning a no-op or an invalid-state signal. -/
theorem stop_while_idle_null_deref :
    stopRecording initialState = Except.error JsError.typeErrorNullStop := by
  rfl

/-- Claim C9: `stopRecording` acts only on the recorder object: for any state
holding a recorder it succeeds, sets only the recorder's state and the
`recording` flag, and the stream held by the recorder — every field of it —
is unchanged. -/
theorem stop_preserves_stream (st : AppState) (r : MediaRecorder) :
    stopRecording { st with mediaRecorderRef := some r }
      = Except.ok { st with
          mediaRecorderRef := some { stream := r.stream, state := RecorderState.inactive }
          recording := false } ∧
    ({ st with
        mediaRecorderRef := some { stream := r.stream, state := RecorderState.inactive }
        recording := false } : AppState).mediaRecorderRef.map MediaRecorder.stream
      = some r.stream ∧
    ({ st with
        mediaRecorderRef := some { stream := r.stream, state := RecorderState.inactive }
        recording := false } : AppState).mediaRecorderRef.map
          (fun m => (m.stream.id, m.stream.audioTrackLive))
      = some (r.stream.id, r.stream.audioTrackLive) := by
  exact ⟨rfl, rfl, rfl⟩

/-- Claim C10: the playable audio reference is assigned from the finalized
blob in the synchronous part of stop, before the upload suspends; for every
fetch outcome, including failures, the final `audioUrl` is the new
recording's URL, and the fetch continuation never changes `audioUrl`. -/
theorem audio_url_independent_of_upload (st : AppState) (outcome : FetchOutcome) :
    (onstopSync st).1.audioUrl = some (createObjectURL (finalizeBlob st)) ∧
    ((onstop st outcome).1).audioUrl = some (createObjectURL (finalizeBlob st)) ∧
    ∀ st2, (applyFetchOutcome st2 outcome).audioUrl = st2.audioUrl := by
  refine ⟨rfl, ?_, ?_⟩
  · cases outcome <;> simp [onstop, onstopSync, applyFetchOutcome]
  · intro st2
    cases outcome <;> simp [applyFetchOutcome]

end App
